import Mathlib

/-!
Verification of the rbfx SceneBatchCollector (RenderPipeline/SceneBatchCollector.cpp/.h)
against its natural-language specification.

The C++ code is shallowly embedded: floats become rationals, the camera and the
octree zone query become explicit parameters, the per-frame collector members
become fields of an explicit state record, and the side effects performed through
drawable pointers (zone-cache writes, pipeline-hash dirty marks, UpdateBatches
calls) are recorded in explicit ledger fields of the same record.  Threading is
determinized: the worker partition of ProcessVisibleDrawables always hands
single-element spans to ProcessVisibleDrawablesForThread, exactly as the source
lambda does, and the thread-partitioned WorkQueueVector containers are modelled
as plain lists (their elements, not their per-thread layout, are observable).
-/

namespace Rbfx

/-! ## Math primitives (Vector3, BoundingBox, engine constants) -/

structure Vector3 where
  x : ℚ
  y : ℚ
  z : ℚ
  deriving DecidableEq

def Vector3.sub (a b : Vector3) : Vector3 := ⟨a.x - b.x, a.y - b.y, a.z - b.z⟩

def Vector3.add (a b : Vector3) : Vector3 := ⟨a.x + b.x, a.y + b.y, a.z + b.z⟩

def Vector3.scale (a : Vector3) (k : ℚ) : Vector3 := ⟨a.x * k, a.y * k, a.z * k⟩

def Vector3.DotProduct (a b : Vector3) : ℚ := a.x * b.x + a.y * b.y + a.z * b.z

def Vector3.Abs (a : Vector3) : Vector3 := ⟨|a.x|, |a.y|, |a.z|⟩

def Vector3.LengthSquared (a : Vector3) : ℚ := a.x * a.x + a.y * a.y + a.z * a.z

structure BoundingBox where
  boxMin : Vector3
  boxMax : Vector3
  deriving DecidableEq

/-- BoundingBox::Center() = (min + max) * 0.5. -/
def BoundingBox.Center (b : BoundingBox) : Vector3 := (b.boxMin.add b.boxMax).scale (1 / 2)

/-- BoundingBox::Size() = max - min. -/
def BoundingBox.Size (b : BoundingBox) : Vector3 := b.boxMax.sub b.boxMin

/-- MathDefs.h: M_LARGE_VALUE = 100000000.0f. -/
def M_LARGE_VALUE : ℚ := 100000000

/-- MathDefs.h: M_LARGE_EPSILON = 0.00005f. -/
def M_LARGE_EPSILON : ℚ := 1 / 20000

/-- ea::max on floats: returns b when a < b, else a. -/
def eaMax (a b : ℚ) : ℚ := if a < b then b else a

/-! ## Lights: FindMainLight (SceneBatchCollector.cpp lines 370-388)

A visible light is abstracted to the two attributes FindMainLight reads through
SceneLight::GetLight(): the light type and Light::GetIntensityDivisor(). -/

inductive LightType
  | directional
  | spot
  | point
  deriving DecidableEq

structure LightRec where
  lightType : LightType
  intensityDivisor : ℚ
  deriving DecidableEq

def defaultLightRec : LightRec := ⟨LightType.spot, 0⟩

/-- Indexing into the visible-light list (total, with a dummy default). -/
def lightAt (ls : List LightRec) (m : ℕ) : LightRec := ls.getD m defaultLightRec

/-- Loop of SceneBatchCollector::FindMainLight: the running score starts at 0,
non-directional lights are skipped (continue), the score of a directional light
is light->GetIntensityDivisor(), and the best index is replaced only on a
strictly greater score. -/
def FindMainLightAux : List LightRec → ℕ → ℚ → Option ℕ → Option ℕ
  | [], _, _, best => best
  | l :: rest, i, mainLightScore, best =>
    if l.lightType = LightType.directional ∧ mainLightScore < l.intensityDivisor then
      FindMainLightAux rest (i + 1) l.intensityDivisor (some i)
    else
      FindMainLightAux rest (i + 1) mainLightScore best

/-- SceneBatchCollector::FindMainLight.  The M_MAX_UNSIGNED sentinel ("none"
index) is modelled as Option.none. -/
def FindMainLight (visibleLights : List LightRec) : Option ℕ :=
  FindMainLightAux visibleLights 0 0 none

/-- Modelled from the spec: the spec scores a directional light by
1/intensityDivisor (lower divisor gives a higher score).  This definition
follows the spec words only; it exists to be compared against the source
definition FindMainLight. -/
def FindMainLightBySpecScoreAux : List LightRec → ℕ → ℚ → Option ℕ → Option ℕ
  | [], _, _, best => best
  | l :: rest, i, score, best =>
    if l.lightType = LightType.directional ∧ score < 1 / l.intensityDivisor then
      FindMainLightBySpecScoreAux rest (i + 1) (1 / l.intensityDivisor) (some i)
    else
      FindMainLightBySpecScoreAux rest (i + 1) score best

/-- Main-light selection as the spec describes it (score = 1/intensityDivisor). -/
def FindMainLightBySpecScore (visibleLights : List LightRec) : Option ℕ :=
  FindMainLightBySpecScoreAux visibleLights 0 0 none

/-- Two directional lights: divisor 1 (first) and divisor 2 (second). -/
def mainLightCexLights : List LightRec :=
  [⟨LightType.directional, 1⟩, ⟨LightType.directional, 2⟩]

/-! ## Light sorting comparator (SceneBatchCollector.cpp lines 294-303) -/

structure SceneLightEntry where
  shadowMapWidth : ℤ
  shadowMapHeight : ℤ
  lightId : ℕ
  deriving DecidableEq

/-- Squared IntVector2 length of the assigned shadow-map size. -/
def shadowMapSqLength (e : SceneLightEntry) : ℤ :=
  e.shadowMapWidth * e.shadowMapWidth + e.shadowMapHeight * e.shadowMapHeight

/-- compareShadowMapSize from ProcessVisibleLights.  IntVector2::Length() is the
square root of the squared length; the square root is strictly monotone on
nonnegative values, so the float Length() comparison is modelled by comparing
the exact squared lengths. -/
def compareShadowMapSize (lhs rhs : SceneLightEntry) : Bool :=
  if (lhs.shadowMapWidth, lhs.shadowMapHeight) ≠ (rhs.shadowMapWidth, rhs.shadowMapHeight) then
    decide (shadowMapSqLength lhs > shadowMapSqLength rhs)
  else
    decide (lhs.lightId > rhs.lightId)

def lightSortCexA : SceneLightEntry := ⟨1, 2, 1⟩

def lightSortCexB : SceneLightEntry := ⟨2, 1, 2⟩

/-! ## Forward-lighting penalty (SceneBatchCollector.cpp lines 390-412) -/

/-- Penalty computed per lit geometry inside AccumulateForwardLighting:
lightIntensityPenalty = 1 / light->GetIntensityDivisor();
distance = ea::max(light->GetDistanceTo(geometry), M_LARGE_EPSILON);
penalty = (lightIndex == mainLightIndex_) ? -M_LARGE_VALUE
                                          : distance * lightIntensityPenalty. -/
def forwardLightingPenalty (mainLightIndex : Option ℕ) (lightIndex : ℕ)
    (distanceTo intensityDivisor : ℚ) : ℚ :=
  let lightIntensityPenalty := 1 / intensityDivisor
  let distance := eaMax distanceTo M_LARGE_EPSILON
  if some lightIndex = mainLightIndex then -M_LARGE_VALUE else distance * lightIntensityPenalty

/-! ## Drawables, passes and the collector state -/

inductive UpdateGeometryType
  | updateMainThread
  | updateWorkerThread
  | updateNone
  deriving DecidableEq

/-- Drawable::GetMutableCachedZone(): cached zone pointer (as an id), the world
position it was sampled at, and the squared invalidation distance. -/
structure CachedDrawableZone where
  cachePosition : Vector3
  cacheInvalidationDistanceSquared : ℚ
  zone : ℕ
  deriving DecidableEq

structure Color where
  r : ℚ
  g : ℚ
  b : ℚ
  a : ℚ
  deriving DecidableEq

def Color.BLACK : Color := ⟨0, 0, 0, 1⟩

/-- A drawable's source batch.  Modelled from the spec: the material resolver
(material->FindTechnique(drawable, quality), with the renderer default material
substituted for a null one) is outside src/; `technique` is the technique that
resolver produces for this batch, none when no technique resolves. -/
structure SourceBatch where
  technique : Option ℕ
  deriving DecidableEq

/-- The attributes of a Drawable read by SceneBatchCollector, snapshotted for
one frame.  `isGeometry`/`isLight` are the DRAWABLE_GEOMETRY / DRAWABLE_LIGHT
bits of GetDrawableFlags(); `distance` is GetDistance() (distance from camera);
`effectiveColor`/`effectiveLightMask` are GetEffectiveColor() and
GetLightMaskEffective() of the light subtype. -/
structure Drawable where
  drawableIndex : ℕ
  drawDistance : ℚ
  distance : ℚ
  isGeometry : Bool
  isLight : Bool
  worldBoundingBox : BoundingBox
  cachedZone : CachedDrawableZone
  zoneMask : ℕ
  updateGeometryType : UpdateGeometryType
  batches : List SourceBatch
  effectiveColor : Color
  effectiveLightMask : ℕ

/-- One registered ScenePass.  Modelled from the spec: ScenePass is outside
src/; per the spec it records every offered source batch in its own batch list
and reports whether the batch requires forward lighting (`isLit`, a fixed
external behavior keyed by drawable index and source-batch index). -/
structure PassState where
  isLit : ℕ → ℕ → Bool
  batches : List (ℕ × ℕ)

/-- Helper class DrawableZRangeEvaluator: viewZ_ is row 2 of the camera view
matrix (m20, m21, m22), m23 its translation entry; absViewZ_ = viewZ_.Abs(). -/
structure DrawableZRangeEvaluator where
  viewZ : Vector3
  m23 : ℚ

/-- DrawableZRange is NumericRange<float>, which is outside src/.  Modelled
from the spec: the invalid/empty range (the default-constructed range returned
for "infinite" objects) is none, a valid range is some (minZ, maxZ). -/
def DrawableZRangeEvaluator.Evaluate (e : DrawableZRangeEvaluator)
    (boundingBox : BoundingBox) : Option (ℚ × ℚ) :=
  let center := boundingBox.Center
  let edge := boundingBox.Size.scale (1 / 2)
  if edge.LengthSquared ≥ M_LARGE_VALUE * M_LARGE_VALUE then none
  else
    let viewCenterZ := e.viewZ.DotProduct center + e.m23
    let viewEdgeZ := e.viewZ.Abs.DotProduct edge
    some (viewCenterZ - viewEdgeZ, viewCenterZ + viewEdgeZ)

/-- SceneZRange accumulation.  Modelled from the spec: SceneZRange is outside
src/; it accumulates the global min/max view-space depth over the accumulated
per-drawable ranges (none = nothing accumulated yet). -/
def AccumulateZRange : Option (ℚ × ℚ) → (ℚ × ℚ) → Option (ℚ × ℚ)
  | none, r => some r
  | some acc, r => some (min acc.1 r.1, max acc.2 r.2)

/-- External collaborators of one frame: the camera (as the Z-range evaluator
derived from it) and the octree zone query Octree::QueryZone(center, zoneMask). -/
structure Config where
  evaluator : DrawableZRangeEvaluator
  queryZone : Vector3 → ℕ → CachedDrawableZone

/-- The SceneBatchCollector members observable through this model, plus ledger
fields (newZones, zoneQueried, pipelineDirty, batchesUpdated) recording the
side effects the collector performs through drawable pointers: zone-cache
writes, Octree zone queries, MarkPipelineStateHashDirty() calls, and
UpdateBatches()/MarkInView() calls.  The thread-partitioned WorkQueueVector
containers are modelled as plain lists of drawable indices. -/
structure CState where
  visibleGeometries : List ℕ
  visibleLightsTemp : List ℕ
  visibleLights : List ℕ
  mainLightIndex : Option ℕ
  lightVolumeBatches : List ℕ
  sceneZRange : Option (ℚ × ℚ)
  shadowCastersToBeUpdated : List ℕ
  threadedGeometryUpdates : List ℕ
  nonThreadedGeometryUpdates : List ℕ
  isUpdated : List ℕ
  traitsVisibleGeometry : List ℕ
  traitsForwardLit : List ℕ
  zRangeTransient : List (ℕ × (ℚ × ℚ))
  drawableLighting : List (List ℕ)
  passes : List PassState
  batchesUpdated : List ℕ
  newZones : List (ℕ × CachedDrawableZone)
  zoneQueried : List ℕ
  pipelineDirty : List ℕ

/-! ### The per-drawable processing loop body
(SceneBatchCollector::ProcessVisibleDrawablesForThread, lines 174-266) -/

/-- Lines 184-186: drawable->UpdateBatches(frameInfo_), MarkInView and the
transient isUpdated_ test_and_set. -/
def markUpdated (st : CState) (d : Drawable) : CState :=
  { st with
    batchesUpdated := st.batchesUpdated ++ [d.drawableIndex],
    isUpdated := st.isUpdated ++ [d.drawableIndex] }

/-- Lines 202-210 (and, identically, lines 324-334 of the shadow-caster update
lambda, which the source marks as a copy of this logic): re-query the cached
zone and mark the pipeline-state hash dirty when the squared distance from the
cached sample point to the current bounding-box center reaches the
invalidation threshold. -/
def zoneStep (cfg : Config) (st : CState) (d : Drawable) : CState :=
  if (d.cachedZone.cachePosition.sub d.worldBoundingBox.Center).LengthSquared
      ≥ d.cachedZone.cacheInvalidationDistanceSquared then
    { st with
      newZones := st.newZones
        ++ [(d.drawableIndex, cfg.queryZone d.worldBoundingBox.Center d.zoneMask)],
      zoneQueried := st.zoneQueried ++ [d.drawableIndex],
      pipelineDirty := st.pipelineDirty ++ [d.drawableIndex] }
  else
    st

/-- Lines 212-219: an invalid ("infinite") Z-range stores the
(M_LARGE_VALUE, M_LARGE_VALUE) placeholder and is not accumulated; a valid
range is stored and accumulated into the scene Z-range. -/
def zRangeStep (cfg : Config) (st : CState) (d : Drawable) : CState :=
  { st with
    zRangeTransient := st.zRangeTransient
      ++ [(d.drawableIndex,
            match cfg.evaluator.Evaluate d.worldBoundingBox with
            | none => (M_LARGE_VALUE, M_LARGE_VALUE)
            | some zRange => zRange)],
    sceneZRange :=
      match cfg.evaluator.Evaluate d.worldBoundingBox with
      | none => st.sceneZRange
      | some zRange => AccumulateZRange st.sceneZRange zRange }

/-- Lines 221-222: record the drawable as visible geometry and set the
DrawableVisibleGeometry trait. -/
def recordGeometryStep (st : CState) (d : Drawable) : CState :=
  { st with
    visibleGeometries := st.visibleGeometries ++ [d.drawableIndex],
    traitsVisibleGeometry := st.traitsVisibleGeometry ++ [d.drawableIndex] }

/-- Lines 224-229: queue the geometry update on the main thread or on workers
according to GetUpdateGeometryType(). -/
def queueUpdateStep (st : CState) (d : Drawable) : CState :=
  { st with
    nonThreadedGeometryUpdates :=
      if d.updateGeometryType = UpdateGeometryType.updateMainThread then
        st.nonThreadedGeometryUpdates ++ [d.drawableIndex]
      else st.nonThreadedGeometryUpdates,
    threadedGeometryUpdates :=
      if d.updateGeometryType = UpdateGeometryType.updateMainThread then
        st.threadedGeometryUpdates
      else st.threadedGeometryUpdates ++ [d.drawableIndex] }

/-- Lines 235-249, one source batch: skip it when no technique resolves;
otherwise offer it to every registered scene pass and set the ForwardLit trait
when some pass reports it as lit. -/
def offerBatch (idx : ℕ) (st : CState) (ib : ℕ × SourceBatch) : CState :=
  { st with
    passes :=
      match ib.2.technique with
      | none => st.passes
      | some _ => st.passes.map fun p => { p with batches := p.batches ++ [(idx, ib.1)] },
    traitsForwardLit :=
      match ib.2.technique with
      | none => st.traitsForwardLit
      | some _ =>
        if st.passes.any fun p => p.isLit idx ib.1 then st.traitsForwardLit ++ [idx]
        else st.traitsForwardLit }

/-- Lines 232-250: the loop over the drawable's source batches. -/
def collectBatchesAux (idx : ℕ) (st : CState) : List (ℕ × SourceBatch) → CState
  | [] => st
  | ib :: rest => collectBatchesAux idx (offerBatch idx st ib) rest

/-- Line 254: drawableLighting_[drawableIndex].Reset(). -/
def resetLightingStep (st : CState) (d : Drawable) : CState :=
  { st with drawableLighting := st.drawableLighting.set d.drawableIndex [] }

/-- Lines 197-255: the DRAWABLE_GEOMETRY branch, in source order: zone update,
Z-range store/accumulate, visible-geometry record, geometry-update queueing,
batch collection, lighting-accumulator reset. -/
def GeometryStep (cfg : Config) (st : CState) (d : Drawable) : CState :=
  resetLightingStep
    (collectBatchesAux d.drawableIndex
      (queueUpdateStep (recordGeometryStep (zRangeStep cfg (zoneStep cfg st d) d) d) d)
      d.batches.enum)
    d

/-- Lines 256-264: the DRAWABLE_LIGHT branch: skip lights whose effective color
equals black or whose effective light mask is zero.  Modelled from the spec for
the part outside src/: Color::Equals is modelled as exact equality with
Color::BLACK ("pure black"). -/
def LightStep (st : CState) (d : Drawable) : CState :=
  if ¬(d.effectiveColor = Color.BLACK) ∧ d.effectiveLightMask ≠ 0 then
    { st with visibleLightsTemp := st.visibleLightsTemp ++ [d.drawableIndex] }
  else
    st

/-- The body of the for-loop of ProcessVisibleDrawablesForThread for one
drawable.  The returned Bool is false when the draw-distance cull hit the
early `return` (lines 188-194): the source returns from the whole function,
abandoning the rest of the span. -/
def ProcessDrawable (cfg : Config) (st : CState) (d : Drawable) : CState × Bool :=
  let st1 := markUpdated st d
  if d.drawDistance > 0 ∧ d.distance > d.drawDistance then (st1, false)
  else if d.isGeometry = true then (GeometryStep cfg st1 d, true)
  else if d.isLight = true then (LightStep st1 d, true)
  else (st1, true)

/-- SceneBatchCollector::ProcessVisibleDrawablesForThread: iterate the span;
the early `return` of the cull check abandons the remaining drawables. -/
def ProcessVisibleDrawablesForThread (cfg : Config) (st : CState) : List Drawable → CState
  | [] => st
  | d :: rest =>
    if (ProcessDrawable cfg st d).2 then
      ProcessVisibleDrawablesForThread cfg (ProcessDrawable cfg st d).1 rest
    else
      (ProcessDrawable cfg st d).1

/-- SceneBatchCollector::ProcessVisibleDrawables, lines 154-161: the parallel
lambda always passes a single-element span { &drawable, 1u } per drawable;
determinized here as a sequential fold.  (The subsequent SceneLight
deduplication of lines 163-171 is modelled separately by DedupeVisibleLights
on SceneLightCacheState.) -/
def ProcessVisibleDrawables (cfg : Config) (st : CState) (drawables : List Drawable) : CState :=
  drawables.foldl (fun s d => ProcessVisibleDrawablesForThread cfg s [d]) st

/-- WorkQueueVector::Insert used by the shadow-caster update (set semantics,
modelled from the spec: a drawable appearing as caster for multiple lights is
queued once). -/
def insertUnique (l : List ℕ) (x : ℕ) : List ℕ := if x ∈ l then l else l ++ [x]

/-- The shadow-caster update lambda of ProcessVisibleLights, lines 318-342:
UpdateBatches/MarkInView, the same zone refresh logic as the geometry path
(the source duplicates it inline), and set-insertion into the
threaded/non-threaded geometry-update queues. -/
def ShadowCasterUpdate (cfg : Config) (st : CState) (d : Drawable) : CState :=
  let st1 := { st with batchesUpdated := st.batchesUpdated ++ [d.drawableIndex] }
  let st2 := zoneStep cfg st1 d
  if d.updateGeometryType = UpdateGeometryType.updateMainThread then
    { st2 with
      nonThreadedGeometryUpdates := insertUnique st2.nonThreadedGeometryUpdates d.drawableIndex }
  else
    { st2 with
      threadedGeometryUpdates := insertUnique st2.threadedGeometryUpdates d.drawableIndex }

/-! ### BeginFrame (SceneBatchCollector.cpp lines 121-152) -/

/-- ea::vector::resize on the per-drawable lighting array: keep the first n
entries, default-construct the rest. -/
def resizeLighting (v : List (List ℕ)) (n : ℕ) : List (List ℕ) :=
  v.take n ++ List.replicate (n - v.length) []

/-- SceneBatchCollector::BeginFrame, container-reset part (lines 136-151):
clears the six WorkQueueVector containers, resets the transient per-drawable
data to the current drawable count, resizes drawableLighting_, and calls
BeginFrame on every pass (which resets the pass's batch list).  The members
visibleLights_, mainLightIndex_ and lightVolumeBatches_ are not touched by
this function.  The ledger fields model state owned by the drawables, not
collector members, and are likewise untouched. -/
def BeginFrame (numDrawables : ℕ) (st : CState) : CState :=
  { st with
    visibleGeometries := [],
    visibleLightsTemp := [],
    sceneZRange := none,
    shadowCastersToBeUpdated := [],
    threadedGeometryUpdates := [],
    nonThreadedGeometryUpdates := [],
    isUpdated := [],
    traitsVisibleGeometry := [],
    traitsForwardLit := [],
    zRangeTransient := [],
    drawableLighting := resizeLighting st.drawableLighting numDrawables,
    passes := st.passes.map fun p => { p with batches := [] } }

/-! ### SceneLight cache (SceneBatchCollector::ProcessVisibleDrawables,
lines 163-171, and the cachedSceneLights_ member) -/

/-- The cachedSceneLights_ map (light identity → SceneLight wrapper identity,
in insertion order), the allocator of fresh wrapper identities (modelling
ea::make_unique), and the visibleLights_ list of wrapper identities. -/
structure SceneLightCacheState where
  cache : List (ℕ × ℕ)
  nextWrapper : ℕ
  visibleLights : List ℕ
  deriving DecidableEq

def lookupCache : List (ℕ × ℕ) → ℕ → Option ℕ
  | [], _ => none
  | e :: rest, l => if e.1 = l then some e.2 else lookupCache rest l

/-- One iteration of the deduplication loop: reuse the cached wrapper for this
light, or create and cache a fresh one, then push it onto visibleLights_. -/
def DedupeStep (st : SceneLightCacheState) (l : ℕ) : SceneLightCacheState :=
  match lookupCache st.cache l with
  | some w => { st with visibleLights := st.visibleLights ++ [w] }
  | none =>
    { cache := st.cache ++ [(l, st.nextWrapper)],
      nextWrapper := st.nextWrapper + 1,
      visibleLights := st.visibleLights ++ [st.nextWrapper] }

def DedupeAux (st : SceneLightCacheState) : List ℕ → SceneLightCacheState
  | [] => st
  | l :: rest => DedupeAux (DedupeStep st l) rest

/-- Lines 163-171: visibleLights_.clear(), then for every collected visible
light reuse or create its cached SceneLight wrapper.  No code path of the
collector ever erases an entry of cachedSceneLights_. -/
def DedupeVisibleLights (st : SceneLightCacheState) (lights : List ℕ) : SceneLightCacheState :=
  DedupeAux { st with visibleLights := [] } lights

/-! ### Concrete sample values used by the witnesses -/

def exEvaluator : DrawableZRangeEvaluator := ⟨⟨0, 0, 1⟩, 0⟩

def exZone : CachedDrawableZone := ⟨⟨0, 0, 0⟩, 1, 0⟩

def exConfig : Config := ⟨exEvaluator, fun _ _ => exZone⟩

def exState : CState :=
  { visibleGeometries := [], visibleLightsTemp := [], visibleLights := [],
    mainLightIndex := none, lightVolumeBatches := [], sceneZRange := none,
    shadowCastersToBeUpdated := [], threadedGeometryUpdates := [],
    nonThreadedGeometryUpdates := [], isUpdated := [], traitsVisibleGeometry := [],
    traitsForwardLit := [], zRangeTransient := [], drawableLighting := [],
    passes := [], batchesUpdated := [], newZones := [], zoneQueried := [],
    pipelineDirty := [] }

/-- A geometry drawable with draw distance 10 placed at distance 15 from the
camera (the end-to-end cull scenario of the spec). -/
def exDrawableCulled : Drawable :=
  { drawableIndex := 0, drawDistance := 10, distance := 15, isGeometry := true,
    isLight := false, worldBoundingBox := ⟨⟨0, 0, 0⟩, ⟨1, 1, 1⟩⟩, cachedZone := exZone,
    zoneMask := 1, updateGeometryType := UpdateGeometryType.updateWorkerThread,
    batches := [], effectiveColor := ⟨1, 1, 1, 1⟩, effectiveLightMask := 1 }

/-- An unlimited-draw-distance geometry drawable whose bounding-box center
(2,2,2) lies 12 > 1 squared units from its cached zone sample point. -/
def exDrawableGeo : Drawable :=
  { exDrawableCulled with
    drawableIndex := 1
    drawDistance := 0
    distance := 100
    worldBoundingBox := ⟨⟨2, 2, 2⟩, ⟨2, 2, 2⟩⟩ }

/-- A white light with nonzero mask. -/
def exDrawableLight : Drawable :=
  { exDrawableCulled with
    drawableIndex := 2
    drawDistance := 0
    distance := 1
    isGeometry := false
    isLight := true }

/-- A collector state carrying light data left over from a completed frame:
visible lights, a main-light index and light-volume batches. -/
def staleState : CState :=
  { exState with
    visibleLights := [7]
    mainLightIndex := some 5
    lightVolumeBatches := [3] }

/-! ### Projection lemmas for the processing steps -/

@[simp] theorem markUpdated_visibleGeometries (st : CState) (d : Drawable) :
    (markUpdated st d).visibleGeometries = st.visibleGeometries := rfl

@[simp] theorem markUpdated_visibleLightsTemp (st : CState) (d : Drawable) :
    (markUpdated st d).visibleLightsTemp = st.visibleLightsTemp := rfl

@[simp] theorem markUpdated_passes (st : CState) (d : Drawable) :
    (markUpdated st d).passes = st.passes := rfl

@[simp] theorem markUpdated_sceneZRange (st : CState) (d : Drawable) :
    (markUpdated st d).sceneZRange = st.sceneZRange := rfl

@[simp] theorem markUpdated_zRangeTransient (st : CState) (d : Drawable) :
    (markUpdated st d).zRangeTransient = st.zRangeTransient := rfl

@[simp] theorem markUpdated_newZones (st : CState) (d : Drawable) :
    (markUpdated st d).newZones = st.newZones := rfl

@[simp] theorem markUpdated_zoneQueried (st : CState) (d : Drawable) :
    (markUpdated st d).zoneQueried = st.zoneQueried := rfl

@[simp] theorem markUpdated_pipelineDirty (st : CState) (d : Drawable) :
    (markUpdated st d).pipelineDirty = st.pipelineDirty := rfl

@[simp] theorem markUpdated_batchesUpdated (st : CState) (d : Drawable) :
    (markUpdated st d).batchesUpdated = st.batchesUpdated ++ [d.drawableIndex] := rfl

@[simp] theorem markUpdated_isUpdated (st : CState) (d : Drawable) :
    (markUpdated st d).isUpdated = st.isUpdated ++ [d.drawableIndex] := rfl

@[simp] theorem zoneStep_visibleGeometries (cfg : Config) (st : CState) (d : Drawable) :
    (zoneStep cfg st d).visibleGeometries = st.visibleGeometries := by
  unfold zoneStep; split <;> rfl

@[simp] theorem zoneStep_visibleLightsTemp (cfg : Config) (st : CState) (d : Drawable) :
    (zoneStep cfg st d).visibleLightsTemp = st.visibleLightsTemp := by
  unfold zoneStep; split <;> rfl

@[simp] theorem zoneStep_passes (cfg : Config) (st : CState) (d : Drawable) :
    (zoneStep cfg st d).passes = st.passes := by
  unfold zoneStep; split <;> rfl

@[simp] theorem zoneStep_sceneZRange (cfg : Config) (st : CState) (d : Drawable) :
    (zoneStep cfg st d).sceneZRange = st.sceneZRange := by
  unfold zoneStep; split <;> rfl

@[simp] theorem zoneStep_zRangeTransient (cfg : Config) (st : CState) (d : Drawable) :
    (zoneStep cfg st d).zRangeTransient = st.zRangeTransient := by
  unfold zoneStep; split <;> rfl

@[simp] theorem zoneStep_threaded (cfg : Config) (st : CState) (d : Drawable) :
    (zoneStep cfg st d).threadedGeometryUpdates = st.threadedGeometryUpdates := by
  unfold zoneStep; split <;> rfl

@[simp] theorem zoneStep_nonThreaded (cfg : Config) (st : CState) (d : Drawable) :
    (zoneStep cfg st d).nonThreadedGeometryUpdates = st.nonThreadedGeometryUpdates := by
  unfold zoneStep; split <;> rfl

@[simp] theorem zoneStep_drawableLighting (cfg : Config) (st : CState) (d : Drawable) :
    (zoneStep cfg st d).drawableLighting = st.drawableLighting := by
  unfold zoneStep; split <;> rfl

@[simp] theorem zoneStep_batchesUpdated (cfg : Config) (st : CState) (d : Drawable) :
    (zoneStep cfg st d).batchesUpdated = st.batchesUpdated := by
  unfold zoneStep; split <;> rfl

@[simp] theorem zoneStep_isUpdated (cfg : Config) (st : CState) (d : Drawable) :
    (zoneStep cfg st d).isUpdated = st.isUpdated := by
  unfold zoneStep; split <;> rfl

theorem zoneStep_of_miss (cfg : Config) (st : CState) (d : Drawable)
    (h : (d.cachedZone.cachePosition.sub d.worldBoundingBox.Center).LengthSquared
        ≥ d.cachedZone.cacheInvalidationDistanceSquared) :
    (zoneStep cfg st d).zoneQueried = st.zoneQueried ++ [d.drawableIndex]
    ∧ (zoneStep cfg st d).pipelineDirty = st.pipelineDirty ++ [d.drawableIndex]
    ∧ (zoneStep cfg st d).newZones
        = st.newZones ++ [(d.drawableIndex, cfg.queryZone d.worldBoundingBox.Center d.zoneMask)] := by
  unfold zoneStep
  rw [if_pos h]
  exact ⟨rfl, rfl, rfl⟩

theorem zoneStep_of_hit (cfg : Config) (st : CState) (d : Drawable)
    (h : ¬((d.cachedZone.cachePosition.sub d.worldBoundingBox.Center).LengthSquared
        ≥ d.cachedZone.cacheInvalidationDistanceSquared)) :
    zoneStep cfg st d = st := by
  unfold zoneStep
  rw [if_neg h]

@[simp] theorem zRangeStep_visibleGeometries (cfg : Config) (st : CState) (d : Drawable) :
    (zRangeStep cfg st d).visibleGeometries = st.visibleGeometries := rfl

@[simp] theorem zRangeStep_visibleLightsTemp (cfg : Config) (st : CState) (d : Drawable) :
    (zRangeStep cfg st d).visibleLightsTemp = st.visibleLightsTemp := rfl

@[simp] theorem zRangeStep_passes (cfg : Config) (st : CState) (d : Drawable) :
    (zRangeStep cfg st d).passes = st.passes := rfl

@[simp] theorem zRangeStep_newZones (cfg : Config) (st : CState) (d : Drawable) :
    (zRangeStep cfg st d).newZones = st.newZones := rfl

@[simp] theorem zRangeStep_zoneQueried (cfg : Config) (st : CState) (d : Drawable) :
    (zRangeStep cfg st d).zoneQueried = st.zoneQueried := rfl

@[simp] theorem zRangeStep_pipelineDirty (cfg : Config) (st : CState) (d : Drawable) :
    (zRangeStep cfg st d).pipelineDirty = st.pipelineDirty := rfl

@[simp] theorem zRangeStep_threaded (cfg : Config) (st : CState) (d : Drawable) :
    (zRangeStep cfg st d).threadedGeometryUpdates = st.threadedGeometryUpdates := rfl

@[simp] theorem zRangeStep_nonThreaded (cfg : Config) (st : CState) (d : Drawable) :
    (zRangeStep cfg st d).nonThreadedGeometryUpdates = st.nonThreadedGeometryUpdates := rfl

@[simp] theorem zRangeStep_drawableLighting (cfg : Config) (st : CState) (d : Drawable) :
    (zRangeStep cfg st d).drawableLighting = st.drawableLighting := rfl

@[simp] theorem zRangeStep_batchesUpdated (cfg : Config) (st : CState) (d : Drawable) :
    (zRangeStep cfg st d).batchesUpdated = st.batchesUpdated := rfl

@[simp] theorem zRangeStep_isUpdated (cfg : Config) (st : CState) (d : Drawable) :
    (zRangeStep cfg st d).isUpdated = st.isUpdated := rfl

theorem zRangeStep_sceneZRange_none (cfg : Config) (st : CState) (d : Drawable)
    (h : cfg.evaluator.Evaluate d.worldBoundingBox = none) :
    (zRangeStep cfg st d).sceneZRange = st.sceneZRange := by
  unfold zRangeStep
  rw [h]

theorem zRangeStep_sceneZRange_some (cfg : Config) (st : CState) (d : Drawable) (r : ℚ × ℚ)
    (h : cfg.evaluator.Evaluate d.worldBoundingBox = some r) :
    (zRangeStep cfg st d).sceneZRange = AccumulateZRange st.sceneZRange r := by
  unfold zRangeStep
  rw [h]

theorem zRangeStep_transient_none (cfg : Config) (st : CState) (d : Drawable)
    (h : cfg.evaluator.Evaluate d.worldBoundingBox = none) :
    (zRangeStep cfg st d).zRangeTransient
      = st.zRangeTransient ++ [(d.drawableIndex, (M_LARGE_VALUE, M_LARGE_VALUE))] := by
  unfold zRangeStep
  rw [h]

theorem zRangeStep_transient_some (cfg : Config) (st : CState) (d : Drawable) (r : ℚ × ℚ)
    (h : cfg.evaluator.Evaluate d.worldBoundingBox = some r) :
    (zRangeStep cfg st d).zRangeTransient = st.zRangeTransient ++ [(d.drawableIndex, r)] := by
  unfold zRangeStep
  rw [h]

@[simp] theorem recordGeometryStep_visibleGeometries (st : CState) (d : Drawable) :
    (recordGeometryStep st d).visibleGeometries = st.visibleGeometries ++ [d.drawableIndex] := rfl

@[simp] theorem recordGeometryStep_visibleLightsTemp (st : CState) (d : Drawable) :
    (recordGeometryStep st d).visibleLightsTemp = st.visibleLightsTemp := rfl

@[simp] theorem recordGeometryStep_passes (st : CState) (d : Drawable) :
    (recordGeometryStep st d).passes = st.passes := rfl

@[simp] theorem recordGeometryStep_sceneZRange (st : CState) (d : Drawable) :
    (recordGeometryStep st d).sceneZRange = st.sceneZRange := rfl

@[simp] theorem recordGeometryStep_zRangeTransient (st : CState) (d : Drawable) :
    (recordGeometryStep st d).zRangeTransient = st.zRangeTransient := rfl

@[simp] theorem recordGeometryStep_newZones (st : CState) (d : Drawable) :
    (recordGeometryStep st d).newZones = st.newZones := rfl

@[simp] theorem recordGeometryStep_zoneQueried (st : CState) (d : Drawable) :
    (recordGeometryStep st d).zoneQueried = st.zoneQueried := rfl

@[simp] theorem recordGeometryStep_pipelineDirty (st : CState) (d : Drawable) :
    (recordGeometryStep st d).pipelineDirty = st.pipelineDirty := rfl

@[simp] theorem queueUpdateStep_visibleGeometries (st : CState) (d : Drawable) :
    (queueUpdateStep st d).visibleGeometries = st.visibleGeometries := rfl

@[simp] theorem queueUpdateStep_visibleLightsTemp (st : CState) (d : Drawable) :
    (queueUpdateStep st d).visibleLightsTemp = st.visibleLightsTemp := rfl

@[simp] theorem queueUpdateStep_passes (st : CState) (d : Drawable) :
    (queueUpdateStep st d).passes = st.passes := rfl

@[simp] theorem queueUpdateStep_sceneZRange (st : CState) (d : Drawable) :
    (queueUpdateStep st d).sceneZRange = st.sceneZRange := rfl

@[simp] theorem queueUpdateStep_zRangeTransient (st : CState) (d : Drawable) :
    (queueUpdateStep st d).zRangeTransient = st.zRangeTransient := rfl

@[simp] theorem queueUpdateStep_newZones (st : CState) (d : Drawable) :
    (queueUpdateStep st d).newZones = st.newZones := rfl

@[simp] theorem queueUpdateStep_zoneQueried (st : CState) (d : Drawable) :
    (queueUpdateStep st d).zoneQueried = st.zoneQueried := rfl

@[simp] theorem queueUpdateStep_pipelineDirty (st : CState) (d : Drawable) :
    (queueUpdateStep st d).pipelineDirty = st.pipelineDirty := rfl

@[simp] theorem offerBatch_visibleGeometries (idx : ℕ) (st : CState) (ib : ℕ × SourceBatch) :
    (offerBatch idx st ib).visibleGeometries = st.visibleGeometries := rfl

@[simp] theorem offerBatch_visibleLightsTemp (idx : ℕ) (st : CState) (ib : ℕ × SourceBatch) :
    (offerBatch idx st ib).visibleLightsTemp = st.visibleLightsTemp := rfl

@[simp] theorem offerBatch_sceneZRange (idx : ℕ) (st : CState) (ib : ℕ × SourceBatch) :
    (offerBatch idx st ib).sceneZRange = st.sceneZRange := rfl

@[simp] theorem offerBatch_zRangeTransient (idx : ℕ) (st : CState) (ib : ℕ × SourceBatch) :
    (offerBatch idx st ib).zRangeTransient = st.zRangeTransient := rfl

@[simp] theorem offerBatch_newZones (idx : ℕ) (st : CState) (ib : ℕ × SourceBatch) :
    (offerBatch idx st ib).newZones = st.newZones := rfl

@[simp] theorem offerBatch_zoneQueried (idx : ℕ) (st : CState) (ib : ℕ × SourceBatch) :
    (offerBatch idx st ib).zoneQueried = st.zoneQueried := rfl

@[simp] theorem offerBatch_pipelineDirty (idx : ℕ) (st : CState) (ib : ℕ × SourceBatch) :
    (offerBatch idx st ib).pipelineDirty = st.pipelineDirty := rfl

@[simp] theorem collectBatchesAux_visibleGeometries (idx : ℕ) (bs : List (ℕ × SourceBatch)) :
    ∀ st : CState, (collectBatchesAux idx st bs).visibleGeometries = st.visibleGeometries := by
  induction bs with
  | nil => intro st; rfl
  | cons ib rest ih => intro st; exact (ih (offerBatch idx st ib)).trans rfl

@[simp] theorem collectBatchesAux_visibleLightsTemp (idx : ℕ) (bs : List (ℕ × SourceBatch)) :
    ∀ st : CState, (collectBatchesAux idx st bs).visibleLightsTemp = st.visibleLightsTemp := by
  induction bs with
  | nil => intro st; rfl
  | cons ib rest ih => intro st; exact (ih (offerBatch idx st ib)).trans rfl

@[simp] theorem collectBatchesAux_sceneZRange (idx : ℕ) (bs : List (ℕ × SourceBatch)) :
    ∀ st : CState, (collectBatchesAux idx st bs).sceneZRange = st.sceneZRange := by
  induction bs with
  | nil => intro st; rfl
  | cons ib rest ih => intro st; exact (ih (offerBatch idx st ib)).trans rfl

@[simp] theorem collectBatchesAux_zRangeTransient (idx : ℕ) (bs : List (ℕ × SourceBatch)) :
    ∀ st : CState, (collectBatchesAux idx st bs).zRangeTransient = st.zRangeTransient := by
  induction bs with
  | nil => intro st; rfl
  | cons ib rest ih => intro st; exact (ih (offerBatch idx st ib)).trans rfl

@[simp] theorem collectBatchesAux_newZones (idx : ℕ) (bs : List (ℕ × SourceBatch)) :
    ∀ st : CState, (collectBatchesAux idx st bs).newZones = st.newZones := by
  induction bs with
  | nil => intro st; rfl
  | cons ib rest ih => intro st; exact (ih (offerBatch idx st ib)).trans rfl

@[simp] theorem collectBatchesAux_zoneQueried (idx : ℕ) (bs : List (ℕ × SourceBatch)) :
    ∀ st : CState, (collectBatchesAux idx st bs).zoneQueried = st.zoneQueried := by
  induction bs with
  | nil => intro st; rfl
  | cons ib rest ih => intro st; exact (ih (offerBatch idx st ib)).trans rfl

@[simp] theorem collectBatchesAux_pipelineDirty (idx : ℕ) (bs : List (ℕ × SourceBatch)) :
    ∀ st : CState, (collectBatchesAux idx st bs).pipelineDirty = st.pipelineDirty := by
  induction bs with
  | nil => intro st; rfl
  | cons ib rest ih => intro st; exact (ih (offerBatch idx st ib)).trans rfl

@[simp] theorem resetLightingStep_visibleGeometries (st : CState) (d : Drawable) :
    (resetLightingStep st d).visibleGeometries = st.visibleGeometries := rfl

@[simp] theorem resetLightingStep_visibleLightsTemp (st : CState) (d : Drawable) :
    (resetLightingStep st d).visibleLightsTemp = st.visibleLightsTemp := rfl

@[simp] theorem resetLightingStep_sceneZRange (st : CState) (d : Drawable) :
    (resetLightingStep st d).sceneZRange = st.sceneZRange := rfl

@[simp] theorem resetLightingStep_zRangeTransient (st : CState) (d : Drawable) :
    (resetLightingStep st d).zRangeTransient = st.zRangeTransient := rfl

@[simp] theorem resetLightingStep_newZones (st : CState) (d : Drawable) :
    (resetLightingStep st d).newZones = st.newZones := rfl

@[simp] theorem resetLightingStep_zoneQueried (st : CState) (d : Drawable) :
    (resetLightingStep st d).zoneQueried = st.zoneQueried := rfl

@[simp] theorem resetLightingStep_pipelineDirty (st : CState) (d : Drawable) :
    (resetLightingStep st d).pipelineDirty = st.pipelineDirty := rfl

/-! ### Composite facts about ProcessDrawable -/

theorem ProcessDrawable_culled (cfg : Config) (st : CState) (d : Drawable)
    (h1 : d.drawDistance > 0) (h2 : d.distance > d.drawDistance) :
    ProcessDrawable cfg st d = (markUpdated st d, false) := by
  unfold ProcessDrawable
  rw [if_pos ⟨h1, h2⟩]

theorem ProcessDrawable_geometry (cfg : Config) (st : CState) (d : Drawable)
    (hcull : ¬(d.drawDistance > 0 ∧ d.distance > d.drawDistance)) (hg : d.isGeometry = true) :
    ProcessDrawable cfg st d = (GeometryStep cfg (markUpdated st d) d, true) := by
  unfold ProcessDrawable
  rw [if_neg hcull, if_pos hg]

theorem ProcessDrawable_light (cfg : Config) (st : CState) (d : Drawable)
    (hcull : ¬(d.drawDistance > 0 ∧ d.distance > d.drawDistance))
    (hng : d.isGeometry = false) (hl : d.isLight = true) :
    ProcessDrawable cfg st d = (LightStep (markUpdated st d) d, true) := by
  unfold ProcessDrawable
  have hng2 : ¬(d.isGeometry = true) := by simp [hng]
  rw [if_neg hcull, if_neg hng2, if_pos hl]

theorem ProcessVisibleDrawablesForThread_singleton (cfg : Config) (st : CState) (d : Drawable) :
    ProcessVisibleDrawablesForThread cfg st [d] = (ProcessDrawable cfg st d).1 := by
  simp only [ProcessVisibleDrawablesForThread]
  split <;> rfl

theorem GeometryStep_visibleGeometries (cfg : Config) (st : CState) (d : Drawable) :
    (GeometryStep cfg st d).visibleGeometries = st.visibleGeometries ++ [d.drawableIndex] := by
  unfold GeometryStep
  simp

theorem GeometryStep_visibleLightsTemp (cfg : Config) (st : CState) (d : Drawable) :
    (GeometryStep cfg st d).visibleLightsTemp = st.visibleLightsTemp := by
  unfold GeometryStep
  simp

theorem GeometryStep_zoneQueried (cfg : Config) (st : CState) (d : Drawable) :
    (GeometryStep cfg st d).zoneQueried = (zoneStep cfg st d).zoneQueried := by
  unfold GeometryStep
  simp

theorem GeometryStep_pipelineDirty (cfg : Config) (st : CState) (d : Drawable) :
    (GeometryStep cfg st d).pipelineDirty = (zoneStep cfg st d).pipelineDirty := by
  unfold GeometryStep
  simp

theorem GeometryStep_newZones (cfg : Config) (st : CState) (d : Drawable) :
    (GeometryStep cfg st d).newZones = (zoneStep cfg st d).newZones := by
  unfold GeometryStep
  simp

theorem GeometryStep_sceneZRange (cfg : Config) (st : CState) (d : Drawable) :
    (GeometryStep cfg st d).sceneZRange = (zRangeStep cfg (zoneStep cfg st d) d).sceneZRange := by
  unfold GeometryStep
  simp

theorem GeometryStep_zRangeTransient (cfg : Config) (st : CState) (d : Drawable) :
    (GeometryStep cfg st d).zRangeTransient
      = (zRangeStep cfg (zoneStep cfg st d) d).zRangeTransient := by
  unfold GeometryStep
  simp

theorem ShadowCasterUpdate_zoneFields (cfg : Config) (st : CState) (d : Drawable) :
    (ShadowCasterUpdate cfg st d).zoneQueried
      = (zoneStep cfg { st with batchesUpdated := st.batchesUpdated ++ [d.drawableIndex] } d).zoneQueried
    ∧ (ShadowCasterUpdate cfg st d).pipelineDirty
      = (zoneStep cfg { st with batchesUpdated := st.batchesUpdated ++ [d.drawableIndex] } d).pipelineDirty
    ∧ (ShadowCasterUpdate cfg st d).newZones
      = (zoneStep cfg { st with batchesUpdated := st.batchesUpdated ++ [d.drawableIndex] } d).newZones := by
  unfold ShadowCasterUpdate
  split <;> exact ⟨rfl, rfl, rfl⟩

/-! ### C9 theorem -/

/-- C9: a processed drawable with positive draw distance whose camera distance
exceeds it is culled: it enters neither the visible-geometry list nor any
registered pass's batch list (nor the visible-light list); a draw distance of
0 or negative never culls, so such a geometry drawable is always recorded
visible. -/
theorem drawDistanceCull_spec (cfg : Config) (st : CState) (d : Drawable) :
    (d.drawDistance > 0 → d.distance > d.drawDistance →
      (ProcessVisibleDrawablesForThread cfg st [d]).visibleGeometries = st.visibleGeometries
      ∧ (ProcessVisibleDrawablesForThread cfg st [d]).passes = st.passes
      ∧ (ProcessVisibleDrawablesForThread cfg st [d]).visibleLightsTemp = st.visibleLightsTemp)
    ∧ (d.drawDistance ≤ 0 → d.isGeometry = true →
      (ProcessVisibleDrawablesForThread cfg st [d]).visibleGeometries
        = st.visibleGeometries ++ [d.drawableIndex]) := by
  constructor
  · intro h1 h2
    rw [ProcessVisibleDrawablesForThread_singleton, ProcessDrawable_culled cfg st d h1 h2]
    exact ⟨rfl, rfl, rfl⟩
  · intro h0 hg
    have hcull : ¬(d.drawDistance > 0 ∧ d.distance > d.drawDistance) := by
      intro hcon
      exact absurd h0 (not_le.mpr hcon.1)
    rw [ProcessVisibleDrawablesForThread_singleton, ProcessDrawable_geometry cfg st d hcull hg]
    simp [GeometryStep_visibleGeometries]

/-- C9 witness: the culled scenario drawDistance = 10 at distance 15, and the
unlimited scenario drawDistance = 0 at distance 100. -/
theorem drawDistanceCull_spec_witness :
    ((ProcessVisibleDrawablesForThread exConfig exState [exDrawableCulled]).visibleGeometries
        = exState.visibleGeometries
      ∧ (ProcessVisibleDrawablesForThread exConfig exState [exDrawableCulled]).passes
        = exState.passes
      ∧ (ProcessVisibleDrawablesForThread exConfig exState [exDrawableCulled]).visibleLightsTemp
        = exState.visibleLightsTemp)
    ∧ (ProcessVisibleDrawablesForThread exConfig exState [exDrawableGeo]).visibleGeometries
        = exState.visibleGeometries ++ [exDrawableGeo.drawableIndex] :=
  ⟨(drawDistanceCull_spec exConfig exState exDrawableCulled).1 (by decide) (by decide),
   (drawDistanceCull_spec exConfig exState exDrawableGeo).2 (by decide) (by decide)⟩

/-! ### C10 theorem -/

/-- C10: the draw-distance cull executes `return`, so inside one span every
drawable after the culled one is left unprocessed (the whole call collapses to
the state just after the culled drawable's UpdateBatches/MarkInView), while
the public ProcessVisibleDrawables entry point only ever passes single-element
spans, so there a culled drawable is skipped alone and every later drawable is
still processed. -/
theorem cullEarlyReturn_spec (cfg : Config) (st : CState) (d : Drawable) (rest : List Drawable)
    (h1 : d.drawDistance > 0) (h2 : d.distance > d.drawDistance) :
    ProcessVisibleDrawablesForThread cfg st (d :: rest) = markUpdated st d
    ∧ ProcessVisibleDrawables cfg st (d :: rest)
        = ProcessVisibleDrawables cfg (markUpdated st d) rest
    ∧ (∀ d2 : Drawable, ¬(d2.drawDistance > 0 ∧ d2.distance > d2.drawDistance) →
        d2.isGeometry = true →
        (ProcessVisibleDrawables cfg st [d, d2]).visibleGeometries
          = st.visibleGeometries ++ [d2.drawableIndex]) := by
  have hPD := ProcessDrawable_culled cfg st d h1 h2
  have hsingle : ProcessVisibleDrawablesForThread cfg st [d] = markUpdated st d := by
    rw [ProcessVisibleDrawablesForThread_singleton, hPD]
  refine ⟨?_, ?_, ?_⟩
  · simp only [ProcessVisibleDrawablesForThread]
    rw [hPD]
    simp
  · unfold ProcessVisibleDrawables
    rw [List.foldl_cons, hsingle]
  · intro d2 hcull2 hg2
    have hentry2 : ProcessVisibleDrawables cfg st [d, d2]
        = ProcessVisibleDrawables cfg (markUpdated st d) [d2] := by
      unfold ProcessVisibleDrawables
      rw [List.foldl_cons, hsingle]
    rw [hentry2]
    unfold ProcessVisibleDrawables
    rw [List.foldl_cons, List.foldl_nil]
    rw [ProcessVisibleDrawablesForThread_singleton,
      ProcessDrawable_geometry cfg (markUpdated st d) d2 hcull2 hg2]
    simp [GeometryStep_visibleGeometries]

/-- C10 witness: the culled drawable followed by a visible geometry through the
public entry point; the second drawable is still recorded. -/
theorem cullEarlyReturn_spec_witness :
    (ProcessVisibleDrawables exConfig exState [exDrawableCulled, exDrawableGeo]).visibleGeometries
      = exState.visibleGeometries ++ [exDrawableGeo.drawableIndex] :=
  (cullEarlyReturn_spec exConfig exState exDrawableCulled [] (by decide) (by decide)).2.2
    exDrawableGeo (by decide) (by decide)

/-! ### C8 theorem -/

/-- C8: a visible light drawable (that reaches the light branch) is added to
the visible-light list exactly when its effective color differs from black and
its effective light mask is nonzero: black or zero-mask lights are skipped,
all others are added. -/
theorem lightFilter_spec (cfg : Config) (st : CState) (d : Drawable)
    (hng : d.isGeometry = false) (hl : d.isLight = true)
    (hcull : ¬(d.drawDistance > 0 ∧ d.distance > d.drawDistance)) :
    ((d.effectiveColor = Color.BLACK ∨ d.effectiveLightMask = 0) →
      ((ProcessDrawable cfg st d).1).visibleLightsTemp = st.visibleLightsTemp)
    ∧ (d.effectiveColor ≠ Color.BLACK → d.effectiveLightMask ≠ 0 →
      ((ProcessDrawable cfg st d).1).visibleLightsTemp
        = st.visibleLightsTemp ++ [d.drawableIndex]) := by
  rw [ProcessDrawable_light cfg st d hcull hng hl]
  constructor
  · intro hskip
    have hneg : ¬(¬(d.effectiveColor = Color.BLACK) ∧ d.effectiveLightMask ≠ 0) := by
      rcases hskip with h | h
      · intro hcon; exact hcon.1 h
      · intro hcon; exact hcon.2 h
    show (LightStep (markUpdated st d) d).visibleLightsTemp = st.visibleLightsTemp
    unfold LightStep
    rw [if_neg hneg]
    rfl
  · intro hc hm
    show (LightStep (markUpdated st d) d).visibleLightsTemp
      = st.visibleLightsTemp ++ [d.drawableIndex]
    unfold LightStep
    rw [if_pos ⟨hc, hm⟩]
    rfl

/-- C8 witness: a white light with mask 1 is added to the visible-light list. -/
theorem lightFilter_spec_witness :
    ((ProcessDrawable exConfig exState exDrawableLight).1).visibleLightsTemp
      = exState.visibleLightsTemp ++ [exDrawableLight.drawableIndex] :=
  (lightFilter_spec exConfig exState exDrawableLight (by decide) (by decide) (by decide)).2
    (by decide) (by decide)

/-! ### C6 theorem -/

/-- C6: during geometry processing the cached zone is re-queried if and only if
the squared distance from the cached sample point to the current bounding-box
center reaches cacheInvalidationDistanceSquared_ (a hit leaves the zone cache,
the query ledger and the dirty flag untouched), every miss both stores the
fresh Octree::QueryZone result and marks the pipeline-state hash dirty, and
the shadow-caster update phase applies exactly the same rule. -/
theorem zoneCacheHysteresis_spec (cfg : Config) (st : CState) (d : Drawable) :
    (d.isGeometry = true → ¬(d.drawDistance > 0 ∧ d.distance > d.drawDistance) →
      ((d.cachedZone.cachePosition.sub d.worldBoundingBox.Center).LengthSquared
          ≥ d.cachedZone.cacheInvalidationDistanceSquared →
        ((ProcessDrawable cfg st d).1).zoneQueried = st.zoneQueried ++ [d.drawableIndex]
        ∧ ((ProcessDrawable cfg st d).1).pipelineDirty = st.pipelineDirty ++ [d.drawableIndex]
        ∧ ((ProcessDrawable cfg st d).1).newZones
            = st.newZones
              ++ [(d.drawableIndex, cfg.queryZone d.worldBoundingBox.Center d.zoneMask)])
      ∧ (¬((d.cachedZone.cachePosition.sub d.worldBoundingBox.Center).LengthSquared
          ≥ d.cachedZone.cacheInvalidationDistanceSquared) →
        ((ProcessDrawable cfg st d).1).zoneQueried = st.zoneQueried
        ∧ ((ProcessDrawable cfg st d).1).pipelineDirty = st.pipelineDirty
        ∧ ((ProcessDrawable cfg st d).1).newZones = st.newZones))
    ∧ (((d.cachedZone.cachePosition.sub d.worldBoundingBox.Center).LengthSquared
          ≥ d.cachedZone.cacheInvalidationDistanceSquared →
        (ShadowCasterUpdate cfg st d).zoneQueried = st.zoneQueried ++ [d.drawableIndex]
        ∧ (ShadowCasterUpdate cfg st d).pipelineDirty = st.pipelineDirty ++ [d.drawableIndex]
        ∧ (ShadowCasterUpdate cfg st d).newZones
            = st.newZones
              ++ [(d.drawableIndex, cfg.queryZone d.worldBoundingBox.Center d.zoneMask)])
      ∧ (¬((d.cachedZone.cachePosition.sub d.worldBoundingBox.Center).LengthSquared
          ≥ d.cachedZone.cacheInvalidationDistanceSquared) →
        (ShadowCasterUpdate cfg st d).zoneQueried = st.zoneQueried
        ∧ (ShadowCasterUpdate cfg st d).pipelineDirty = st.pipelineDirty
        ∧ (ShadowCasterUpdate cfg st d).newZones = st.newZones)) := by
  constructor
  · intro hg hcull
    rw [ProcessDrawable_geometry cfg st d hcull hg]
    constructor
    · intro hmiss
      obtain ⟨hq, hp, hz⟩ := zoneStep_of_miss cfg (markUpdated st d) d hmiss
      refine ⟨?_, ?_, ?_⟩
      · rw [show ((GeometryStep cfg (markUpdated st d) d, true)).1
            = GeometryStep cfg (markUpdated st d) d from rfl,
          GeometryStep_zoneQueried, hq, markUpdated_zoneQueried]
      · rw [show ((GeometryStep cfg (markUpdated st d) d, true)).1
            = GeometryStep cfg (markUpdated st d) d from rfl,
          GeometryStep_pipelineDirty, hp, markUpdated_pipelineDirty]
      · rw [show ((GeometryStep cfg (markUpdated st d) d, true)).1
            = GeometryStep cfg (markUpdated st d) d from rfl,
          GeometryStep_newZones, hz, markUpdated_newZones]
    · intro hhit
      have hzs := zoneStep_of_hit cfg (markUpdated st d) d hhit
      refine ⟨?_, ?_, ?_⟩
      · rw [show ((GeometryStep cfg (markUpdated st d) d, true)).1
            = GeometryStep cfg (markUpdated st d) d from rfl,
          GeometryStep_zoneQueried, hzs, markUpdated_zoneQueried]
      · rw [show ((GeometryStep cfg (markUpdated st d) d, true)).1
            = GeometryStep cfg (markUpdated st d) d from rfl,
          GeometryStep_pipelineDirty, hzs, markUpdated_pipelineDirty]
      · rw [show ((GeometryStep cfg (markUpdated st d) d, true)).1
            = GeometryStep cfg (markUpdated st d) d from rfl,
          GeometryStep_newZones, hzs, markUpdated_newZones]
  · obtain ⟨hsq, hsp, hsz⟩ := ShadowCasterUpdate_zoneFields cfg st d
    constructor
    · intro hmiss
      obtain ⟨hq, hp, hz⟩ := zoneStep_of_miss cfg
        { st with batchesUpdated := st.batchesUpdated ++ [d.drawableIndex] } d hmiss
      exact ⟨hsq.trans hq, hsp.trans hp, hsz.trans hz⟩
    · intro hhit
      have hzs := zoneStep_of_hit cfg
        { st with batchesUpdated := st.batchesUpdated ++ [d.drawableIndex] } d hhit
      refine ⟨?_, ?_, ?_⟩
      · rw [hsq, hzs]
      · rw [hsp, hzs]
      · rw [hsz, hzs]

/-- C6 witness: the sample geometry sits 12 squared units from its cached
sample point with threshold 1, so both phases re-query the zone and mark the
pipeline hash dirty. -/
theorem zoneCacheHysteresis_spec_witness :
    (((ProcessDrawable exConfig exState exDrawableGeo).1).zoneQueried
        = exState.zoneQueried ++ [exDrawableGeo.drawableIndex]
      ∧ ((ProcessDrawable exConfig exState exDrawableGeo).1).pipelineDirty
        = exState.pipelineDirty ++ [exDrawableGeo.drawableIndex]
      ∧ ((ProcessDrawable exConfig exState exDrawableGeo).1).newZones
        = exState.newZones
          ++ [(exDrawableGeo.drawableIndex,
                exConfig.queryZone exDrawableGeo.worldBoundingBox.Center exDrawableGeo.zoneMask)])
    ∧ ((ShadowCasterUpdate exConfig exState exDrawableGeo).zoneQueried
        = exState.zoneQueried ++ [exDrawableGeo.drawableIndex]
      ∧ (ShadowCasterUpdate exConfig exState exDrawableGeo).pipelineDirty
        = exState.pipelineDirty ++ [exDrawableGeo.drawableIndex]
      ∧ (ShadowCasterUpdate exConfig exState exDrawableGeo).newZones
        = exState.newZones
          ++ [(exDrawableGeo.drawableIndex,
                exConfig.queryZone exDrawableGeo.worldBoundingBox.Center exDrawableGeo.zoneMask)]) :=
  ⟨((zoneCacheHysteresis_spec exConfig exState exDrawableGeo).1 (by decide) (by decide)).1
      (by norm_num [exDrawableGeo, exDrawableCulled, exZone, Vector3.sub, Vector3.LengthSquared,
        BoundingBox.Center, Vector3.add, Vector3.scale]),
   ((zoneCacheHysteresis_spec exConfig exState exDrawableGeo).2).1
      (by norm_num [exDrawableGeo, exDrawableCulled, exZone, Vector3.sub, Vector3.LengthSquared,
        BoundingBox.Center, Vector3.add, Vector3.scale])⟩

/-! ### C5 theorem -/

/-- C5: the Z-range evaluator returns the invalid/empty range exactly when the
squared length of the box's half-diagonal (edge = Size()*0.5) reaches
M_LARGE_VALUE squared; such "infinite" drawables store a placeholder range and
are never accumulated into the scene Z-range, while every geometry with a
valid Z-range has that range stored and accumulated. -/
theorem zRangeEvaluator_spec :
    (∀ (e : DrawableZRangeEvaluator) (box : BoundingBox),
      e.Evaluate box = none
        ↔ (box.Size.scale (1 / 2)).LengthSquared ≥ M_LARGE_VALUE * M_LARGE_VALUE)
    ∧ (∀ (cfg : Config) (st : CState) (d : Drawable),
        d.isGeometry = true → ¬(d.drawDistance > 0 ∧ d.distance > d.drawDistance) →
        (cfg.evaluator.Evaluate d.worldBoundingBox = none →
          ((ProcessDrawable cfg st d).1).sceneZRange = st.sceneZRange
          ∧ ((ProcessDrawable cfg st d).1).zRangeTransient
              = st.zRangeTransient ++ [(d.drawableIndex, (M_LARGE_VALUE, M_LARGE_VALUE))])
        ∧ (∀ r, cfg.evaluator.Evaluate d.worldBoundingBox = some r →
          ((ProcessDrawable cfg st d).1).sceneZRange = AccumulateZRange st.sceneZRange r
          ∧ ((ProcessDrawable cfg st d).1).zRangeTransient
              = st.zRangeTransient ++ [(d.drawableIndex, r)])) := by
  constructor
  · intro e box
    by_cases h : (box.Size.scale (1 / 2)).LengthSquared ≥ M_LARGE_VALUE * M_LARGE_VALUE
    · simp [DrawableZRangeEvaluator.Evaluate, h]
    · simp [DrawableZRangeEvaluator.Evaluate, h]
  · intro cfg st d hg hcull
    rw [ProcessDrawable_geometry cfg st d hcull hg]
    constructor
    · intro hnone
      constructor
      · rw [show ((GeometryStep cfg (markUpdated st d) d, true)).1
            = GeometryStep cfg (markUpdated st d) d from rfl,
          GeometryStep_sceneZRange, zRangeStep_sceneZRange_none _ _ _ hnone,
          zoneStep_sceneZRange, markUpdated_sceneZRange]
      · rw [show ((GeometryStep cfg (markUpdated st d) d, true)).1
            = GeometryStep cfg (markUpdated st d) d from rfl,
          GeometryStep_zRangeTransient, zRangeStep_transient_none _ _ _ hnone,
          zoneStep_zRangeTransient, markUpdated_zRangeTransient]
    · intro r hsome
      constructor
      · rw [show ((GeometryStep cfg (markUpdated st d) d, true)).1
            = GeometryStep cfg (markUpdated st d) d from rfl,
          GeometryStep_sceneZRange, zRangeStep_sceneZRange_some _ _ _ _ hsome,
          zoneStep_sceneZRange, markUpdated_sceneZRange]
      · rw [show ((GeometryStep cfg (markUpdated st d) d, true)).1
            = GeometryStep cfg (markUpdated st d) d from rfl,
          GeometryStep_zRangeTransient, zRangeStep_transient_some _ _ _ _ hsome,
          zoneStep_zRangeTransient, markUpdated_zRangeTransient]

/-- C5 witness: the sample point-like geometry at (2,2,2) has the valid
Z-range (2,2) under the sample camera, and it is accumulated. -/
theorem zRangeEvaluator_spec_witness :
    ((ProcessDrawable exConfig exState exDrawableGeo).1).sceneZRange
      = AccumulateZRange exState.sceneZRange (2, 2)
    ∧ ((ProcessDrawable exConfig exState exDrawableGeo).1).zRangeTransient
      = exState.zRangeTransient ++ [(exDrawableGeo.drawableIndex, ((2 : ℚ), (2 : ℚ)))] :=
  (zRangeEvaluator_spec.2 exConfig exState exDrawableGeo (by decide) (by decide)).2 (2, 2)
    (by norm_num [DrawableZRangeEvaluator.Evaluate, exConfig, exEvaluator, exDrawableGeo,
      exDrawableCulled, BoundingBox.Center, BoundingBox.Size, Vector3.add, Vector3.sub,
      Vector3.scale, Vector3.Abs, Vector3.DotProduct, Vector3.LengthSquared,
      M_LARGE_VALUE])

/-! ### C2 theorems -/

/-- C2 counterexample: two visible lights whose assigned shadow-map sizes (1,2)
and (2,1) have the same footprint (squared length 5) but different identifiers.
The sort comparator used by ProcessVisibleLights orders neither before the
other, so the claimed strict total order (equal footprint resolved by
descending light identifier, independent of traversal order) fails at this
input: no comparison sort is forced to place the higher identifier first. -/
theorem compareShadowMapSize_cex :
    compareShadowMapSize lightSortCexA lightSortCexB = false
    ∧ compareShadowMapSize lightSortCexB lightSortCexA = false
    ∧ shadowMapSqLength lightSortCexA = shadowMapSqLength lightSortCexB
    ∧ lightSortCexA.lightId < lightSortCexB.lightId
    ∧ lightSortCexA ≠ lightSortCexB := by
  decide

/-- C2 (amended): the visible-light comparator orders a strictly larger
shadow-map footprint before a smaller one whenever the footprints differ, and
breaks ties by descending light identifier only when the shadow-map size
vectors are exactly equal; the comparator is asymmetric.  (Lights with equal
footprint but different size vectors remain mutually unordered, so the overall
order is not a strict total order and their relative order may depend on
traversal order.) -/
theorem compareShadowMapSize_spec (a b : SceneLightEntry) :
    (shadowMapSqLength a ≠ shadowMapSqLength b →
      (compareShadowMapSize a b = true ↔ shadowMapSqLength a > shadowMapSqLength b))
    ∧ ((a.shadowMapWidth, a.shadowMapHeight) = (b.shadowMapWidth, b.shadowMapHeight) →
      (compareShadowMapSize a b = true ↔ a.lightId > b.lightId))
    ∧ ¬(compareShadowMapSize a b = true ∧ compareShadowMapSize b a = true) := by
  refine ⟨?_, ?_, ?_⟩
  · intro hne
    have hsz : (a.shadowMapWidth, a.shadowMapHeight) ≠ (b.shadowMapWidth, b.shadowMapHeight) := by
      intro h
      apply hne
      unfold shadowMapSqLength
      rw [Prod.mk.injEq] at h
      rw [h.1, h.2]
    simp [compareShadowMapSize, hsz]
  · intro hsz
    simp [compareShadowMapSize, hsz]
  · intro hcontra
    obtain ⟨hab, hba⟩ := hcontra
    by_cases hsz : (a.shadowMapWidth, a.shadowMapHeight) = (b.shadowMapWidth, b.shadowMapHeight)
    · simp [compareShadowMapSize, hsz] at hab hba
      omega
    · have hsz2 : (b.shadowMapWidth, b.shadowMapHeight) ≠ (a.shadowMapWidth, a.shadowMapHeight) :=
        fun h => hsz h.symm
      simp [compareShadowMapSize, hsz, hsz2] at hab hba
      omega

/-- C2 witness: the amended comparator facts evaluated at two concrete lights
with footprints 32 and 8. -/
theorem compareShadowMapSize_spec_witness :
    (compareShadowMapSize ⟨4, 4, 1⟩ ⟨2, 2, 5⟩ = true
      ↔ shadowMapSqLength ⟨4, 4, 1⟩ > shadowMapSqLength ⟨2, 2, 5⟩) :=
  (compareShadowMapSize_spec ⟨4, 4, 1⟩ ⟨2, 2, 5⟩).1 (by decide)

/-! ### C7 theorem -/

/-- C7: the forward-lighting penalty equals -M_LARGE_VALUE exactly for the main
light; for any other light it equals distance * (1/intensityDivisor) with the
distance floored to M_LARGE_EPSILON, the floored distance factor is strictly
positive, and the main light's penalty is strictly lower than any non-main
light's non-negative penalty. -/
theorem forwardLightingPenalty_spec (mainIdx : Option ℕ) (i : ℕ) (dist divisor : ℚ) :
    (some i = mainIdx → forwardLightingPenalty mainIdx i dist divisor = -M_LARGE_VALUE)
    ∧ (some i ≠ mainIdx →
        forwardLightingPenalty mainIdx i dist divisor
          = eaMax dist M_LARGE_EPSILON * (1 / divisor)
        ∧ 0 < eaMax dist M_LARGE_EPSILON)
    ∧ (∀ m dm dvm j dj dvj, mainIdx = some m → some j ≠ mainIdx →
        0 ≤ forwardLightingPenalty mainIdx j dj dvj →
        forwardLightingPenalty mainIdx m dm dvm < forwardLightingPenalty mainIdx j dj dvj) := by
  refine ⟨?_, ?_, ?_⟩
  · intro h
    simp [forwardLightingPenalty, h]
  · intro h
    constructor
    · simp [forwardLightingPenalty, h]
    · have heps : (0 : ℚ) < M_LARGE_EPSILON := by norm_num [M_LARGE_EPSILON]
      unfold eaMax
      split
      · exact heps
      · rename_i hlt
        push_neg at hlt
        exact lt_of_lt_of_le heps hlt
  · intro m dm dvm j dj dvj hm hj hnonneg
    have hmain : some m = mainIdx := hm.symm
    have h1 : forwardLightingPenalty mainIdx m dm dvm = -M_LARGE_VALUE := by
      simp [forwardLightingPenalty, hmain]
    rw [h1]
    have hneg : (-M_LARGE_VALUE : ℚ) < 0 := by norm_num [M_LARGE_VALUE]
    exact lt_of_lt_of_le hneg hnonneg

/-! ### C1 theorems -/

theorem lightAt_cons_zero (l : LightRec) (rest : List LightRec) : lightAt (l :: rest) 0 = l := rfl

theorem lightAt_cons_succ (l : LightRec) (rest : List LightRec) (m : ℕ) :
    lightAt (l :: rest) (m + 1) = lightAt rest m := rfl

/-- Invariant of the FindMainLight loop: either the accumulator is returned
unchanged and every directional light in the remaining list has divisor at most
the running score, or the result is the first remaining index whose directional
divisor strictly exceeds the running score and is maximal over the rest. -/
theorem FindMainLightAux_spec (ls : List LightRec) : ∀ (i : ℕ) (s : ℚ) (b : Option ℕ),
    (FindMainLightAux ls i s b = b
      ∧ ∀ l ∈ ls, l.lightType = LightType.directional → l.intensityDivisor ≤ s)
    ∨ (∃ j, j < ls.length
        ∧ FindMainLightAux ls i s b = some (i + j)
        ∧ (lightAt ls j).lightType = LightType.directional
        ∧ s < (lightAt ls j).intensityDivisor
        ∧ (∀ m, m < ls.length → (lightAt ls m).lightType = LightType.directional →
            (lightAt ls m).intensityDivisor ≤ (lightAt ls j).intensityDivisor)
        ∧ (∀ m, m < j → (lightAt ls m).lightType = LightType.directional →
            (lightAt ls m).intensityDivisor < (lightAt ls j).intensityDivisor)) := by
  induction ls with
  | nil =>
    intro i s b
    left
    exact ⟨rfl, by simp⟩
  | cons l rest ih =>
    intro i s b
    by_cases hc : l.lightType = LightType.directional ∧ s < l.intensityDivisor
    · have heq : FindMainLightAux (l :: rest) i s b
          = FindMainLightAux rest (i + 1) l.intensityDivisor (some i) := by
        rw [FindMainLightAux, if_pos hc]
      rcases ih (i + 1) l.intensityDivisor (some i) with ⟨hres, hbound⟩ |
        ⟨j, hj, hres, hdir, hgt, hmax, hfirst⟩
      · right
        refine ⟨0, by simp, ?_, ?_, ?_, ?_, ?_⟩
        · rw [heq, hres]
          simp
        · rw [lightAt_cons_zero]; exact hc.1
        · rw [lightAt_cons_zero]; exact hc.2
        · intro m hm hdirm
          match m with
          | 0 => exact le_refl _
          | Nat.succ m0 =>
            rw [lightAt_cons_succ] at hdirm ⊢
            rw [lightAt_cons_zero]
            have hm0 : m0 < rest.length := by simpa using hm
            have hmem : lightAt rest m0 ∈ rest := by
              unfold lightAt
              rw [List.getD_eq_get (rest) defaultLightRec hm0]
              exact List.get_mem rest m0 hm0
            exact hbound _ hmem hdirm
        · intro m hm
          exact absurd hm (Nat.not_lt_zero m)
      · right
        refine ⟨j + 1, by simpa using hj, ?_, ?_, ?_, ?_, ?_⟩
        · rw [heq, hres]
          congr 1
          omega
        · rw [lightAt_cons_succ]; exact hdir
        · rw [lightAt_cons_succ]; exact lt_trans hc.2 hgt
        · intro m hm hdirm
          match m with
          | 0 =>
            rw [lightAt_cons_zero] at hdirm ⊢
            rw [lightAt_cons_succ]
            exact le_of_lt hgt
          | Nat.succ m0 =>
            rw [lightAt_cons_succ] at hdirm ⊢
            rw [lightAt_cons_succ]
            have hm0 : m0 < rest.length := by simpa using hm
            exact hmax m0 hm0 hdirm
        · intro m hm hdirm
          match m with
          | 0 =>
            rw [lightAt_cons_zero] at hdirm ⊢
            rw [lightAt_cons_succ]
            exact hgt
          | Nat.succ m0 =>
            rw [lightAt_cons_succ] at hdirm ⊢
            rw [lightAt_cons_succ]
            have hm0 : m0 < j := by omega
            exact hfirst m0 hm0 hdirm
    · have heq : FindMainLightAux (l :: rest) i s b = FindMainLightAux rest (i + 1) s b := by
        rw [FindMainLightAux, if_neg hc]
      have hhead : l.lightType = LightType.directional → l.intensityDivisor ≤ s := by
        intro hdirl
        by_contra hgt
        push_neg at hgt
        exact hc ⟨hdirl, hgt⟩
      rcases ih (i + 1) s b with ⟨hres, hbound⟩ | ⟨j, hj, hres, hdir, hgt, hmax, hfirst⟩
      · left
        refine ⟨heq.trans hres, ?_⟩
        intro l2 hl2 hdir2
        rcases List.mem_cons.mp hl2 with h | h
        · rw [h] at hdir2 ⊢; exact hhead hdir2
        · exact hbound l2 h hdir2
      · right
        refine ⟨j + 1, by simpa using hj, ?_, ?_, ?_, ?_, ?_⟩
        · rw [heq, hres]
          congr 1
          omega
        · rw [lightAt_cons_succ]; exact hdir
        · rw [lightAt_cons_succ]; exact lt_of_le_of_lt (le_refl s) hgt
        · intro m hm hdirm
          match m with
          | 0 =>
            rw [lightAt_cons_zero] at hdirm ⊢
            rw [lightAt_cons_succ]
            exact le_of_lt (lt_of_le_of_lt (hhead hdirm) hgt)
          | Nat.succ m0 =>
            rw [lightAt_cons_succ] at hdirm ⊢
            rw [lightAt_cons_succ]
            have hm0 : m0 < rest.length := by simpa using hm
            exact hmax m0 hm0 hdirm
        · intro m hm hdirm
          match m with
          | 0 =>
            rw [lightAt_cons_zero] at hdirm ⊢
            rw [lightAt_cons_succ]
            exact lt_of_le_of_lt (hhead hdirm) hgt
          | Nat.succ m0 =>
            rw [lightAt_cons_succ] at hdirm ⊢
            rw [lightAt_cons_succ]
            have hm0 : m0 < j := by omega
            exact hfirst m0 hm0 hdirm

/-- C1 counterexample: two visible directional lights with intensity divisors 1
and 2.  The source selects index 1 (the larger divisor), while scoring by
1/intensityDivisor as the claim states would select index 0; the light the code
selects has a strictly smaller 1/intensityDivisor score than the light it
rejects, so the claim's characterization of FindMainLight is false here. -/
theorem FindMainLight_cex :
    FindMainLight mainLightCexLights = some 1
    ∧ FindMainLightBySpecScore mainLightCexLights = some 0
    ∧ 1 / (lightAt mainLightCexLights 1).intensityDivisor
        < 1 / (lightAt mainLightCexLights 0).intensityDivisor := by
  refine ⟨by decide, ?_, ?_⟩
  · norm_num [FindMainLightBySpecScore, FindMainLightBySpecScoreAux, mainLightCexLights]
  · norm_num [lightAt, mainLightCexLights]

/-- C1 (amended): assuming every directional light has a positive intensity
divisor (Light::GetIntensityDivisor is floored to a positive epsilon),
FindMainLight returns the sentinel none exactly when no visible light is
directional; otherwise it returns a directional light whose intensityDivisor
(the brightness score used by the code: a higher divisor gives a higher score)
is maximal among directional lights, and on ties the first such light found is
kept (every earlier directional light has a strictly smaller divisor).
Non-directional lights are never selected. -/
theorem FindMainLight_spec (ls : List LightRec)
    (hpos : ∀ l ∈ ls, l.lightType = LightType.directional → 0 < l.intensityDivisor) :
    (FindMainLight ls = none ↔ ∀ l ∈ ls, l.lightType ≠ LightType.directional)
    ∧ (∀ j, FindMainLight ls = some j →
        j < ls.length
        ∧ (lightAt ls j).lightType = LightType.directional
        ∧ (∀ m, m < ls.length → (lightAt ls m).lightType = LightType.directional →
            (lightAt ls m).intensityDivisor ≤ (lightAt ls j).intensityDivisor)
        ∧ (∀ m, m < j → (lightAt ls m).lightType = LightType.directional →
            (lightAt ls m).intensityDivisor < (lightAt ls j).intensityDivisor)) := by
  rcases FindMainLightAux_spec ls 0 0 none with ⟨hres, hbound⟩ |
    ⟨j, hj, hres, hdir, _, hmax, hfirst⟩
  · have hnone : FindMainLight ls = none := hres
    constructor
    · rw [hnone]
      simp only [true_iff]
      intro l hl hdirl
      have h1 : l.intensityDivisor ≤ 0 := hbound l hl hdirl
      have h2 : 0 < l.intensityDivisor := hpos l hl hdirl
      exact absurd h1 (not_le.mpr h2)
    · intro j hsome
      rw [hnone] at hsome
      exact absurd hsome (Option.noConfusion)
  · have hsome : FindMainLight ls = some j := by
      unfold FindMainLight
      rw [hres]
      congr 1
      omega
    constructor
    · rw [hsome]
      constructor
      · intro h
        exact absurd h (Option.noConfusion)
      · intro hnodir
        have hmem : lightAt ls j ∈ ls := by
          unfold lightAt
          rw [List.getD_eq_get ls defaultLightRec hj]
          exact List.get_mem ls j hj
        exact absurd hdir (hnodir _ hmem)
    · intro j2 hsome2
      rw [hsome] at hsome2
      have hjj : j2 = j := (Option.some.injEq _ _).mp hsome2.symm
      rw [hjj]
      exact ⟨hj, hdir, hmax, hfirst⟩

/-- C1 witness: the amended facts evaluated on a concrete list with one spot
light and one directional light of divisor 3. -/
theorem FindMainLight_spec_witness :
    ((FindMainLight [⟨LightType.spot, 1⟩, ⟨LightType.directional, 3⟩] = none
        ↔ ∀ l ∈ [(⟨LightType.spot, 1⟩ : LightRec), ⟨LightType.directional, 3⟩],
            l.lightType ≠ LightType.directional)
      ∧ (∀ j, FindMainLight [⟨LightType.spot, 1⟩, ⟨LightType.directional, 3⟩] = some j →
          j < ([(⟨LightType.spot, 1⟩ : LightRec), ⟨LightType.directional, 3⟩]).length
          ∧ (lightAt [⟨LightType.spot, 1⟩, ⟨LightType.directional, 3⟩] j).lightType
              = LightType.directional
          ∧ (∀ m, m < ([(⟨LightType.spot, 1⟩ : LightRec), ⟨LightType.directional, 3⟩]).length →
              (lightAt [⟨LightType.spot, 1⟩, ⟨LightType.directional, 3⟩] m).lightType
                = LightType.directional →
              (lightAt [⟨LightType.spot, 1⟩, ⟨LightType.directional, 3⟩] m).intensityDivisor
                ≤ (lightAt [⟨LightType.spot, 1⟩, ⟨LightType.directional, 3⟩] j).intensityDivisor)
          ∧ (∀ m, m < j →
              (lightAt [⟨LightType.spot, 1⟩, ⟨LightType.directional, 3⟩] m).lightType
                = LightType.directional →
              (lightAt [⟨LightType.spot, 1⟩, ⟨LightType.directional, 3⟩] m).intensityDivisor
                < (lightAt [⟨LightType.spot, 1⟩, ⟨LightType.directional, 3⟩] j).intensityDivisor))) :=
  FindMainLight_spec [⟨LightType.spot, 1⟩, ⟨LightType.directional, 3⟩] (by decide)

/-! ### C3 theorems -/

/-- C3 counterexample: starting from a state holding a prior frame's
visible-light list, main-light index and light-volume batches, calling
BeginFrame twice with zero drawables leaves all three observable through the
collector's getters (GetVisibleLights, GetMainLightIndex/GetMainLight,
GetLightVolumeBatches): BeginFrame resets neither visibleLights_ nor
mainLightIndex_ nor lightVolumeBatches_, so prior-frame light and main-light
data survives, contradicting the claim. -/
theorem BeginFrame_cex :
    (BeginFrame 0 (BeginFrame 0 staleState)).visibleLights = [7]
    ∧ (BeginFrame 0 (BeginFrame 0 staleState)).mainLightIndex = some 5
    ∧ (BeginFrame 0 (BeginFrame 0 staleState)).lightVolumeBatches = [3] :=
  ⟨rfl, rfl, rfl⟩

/-- C3 (amended): calling BeginFrame twice in succession clears the per-frame
intermediate containers (visible geometries, temporary light list, scene
Z-range, shadow-caster set, both geometry-update queues, the transient
per-drawable data) and resizes the per-drawable lighting array to the current
drawable count, but it does not reset visibleLights_, mainLightIndex_ or
lightVolumeBatches_: data collected for them in a prior frame remains
observable through the getters until later phases overwrite it. -/
theorem BeginFrame_spec (st : CState) (n : ℕ) :
    (BeginFrame n (BeginFrame n st)).visibleGeometries = []
    ∧ (BeginFrame n (BeginFrame n st)).visibleLightsTemp = []
    ∧ (BeginFrame n (BeginFrame n st)).sceneZRange = none
    ∧ (BeginFrame n (BeginFrame n st)).shadowCastersToBeUpdated = []
    ∧ (BeginFrame n (BeginFrame n st)).threadedGeometryUpdates = []
    ∧ (BeginFrame n (BeginFrame n st)).nonThreadedGeometryUpdates = []
    ∧ (BeginFrame n (BeginFrame n st)).isUpdated = []
    ∧ (BeginFrame n (BeginFrame n st)).traitsVisibleGeometry = []
    ∧ (BeginFrame n (BeginFrame n st)).traitsForwardLit = []
    ∧ (BeginFrame n (BeginFrame n st)).zRangeTransient = []
    ∧ (BeginFrame n (BeginFrame n st)).drawableLighting.length = n
    ∧ (BeginFrame n (BeginFrame n st)).visibleLights = st.visibleLights
    ∧ (BeginFrame n (BeginFrame n st)).mainLightIndex = st.mainLightIndex
    ∧ (BeginFrame n (BeginFrame n st)).lightVolumeBatches = st.lightVolumeBatches := by
  refine ⟨rfl, rfl, rfl, rfl, rfl, rfl, rfl, rfl, rfl, rfl, ?_, rfl, rfl, rfl⟩
  show (resizeLighting (resizeLighting st.drawableLighting n) n).length = n
  unfold resizeLighting
  rw [List.length_append, List.length_take, List.length_replicate]
  rw [List.length_append, List.length_take, List.length_replicate]
  omega

/-! ### C4 theorems -/

theorem lookupCache_append_of_some (c : List (ℕ × ℕ)) (e : ℕ × ℕ) (k w : ℕ)
    (h : lookupCache c k = some w) : lookupCache (c ++ [e]) k = some w := by
  induction c with
  | nil => simp [lookupCache] at h
  | cons p rest ih =>
    rw [List.cons_append]
    unfold lookupCache at h ⊢
    by_cases hk : p.1 = k
    · rw [if_pos hk] at h ⊢
      exact h
    · rw [if_neg hk] at h ⊢
      exact ih h

theorem lookupCache_append_self (c : List (ℕ × ℕ)) (l n : ℕ)
    (h : lookupCache c l = none) : lookupCache (c ++ [(l, n)]) l = some n := by
  induction c with
  | nil => simp [lookupCache]
  | cons p rest ih =>
    rw [List.cons_append]
    unfold lookupCache at h ⊢
    by_cases hk : p.1 = l
    · rw [if_pos hk] at h
      exact absurd h (Option.noConfusion)
    · rw [if_neg hk] at h ⊢
      exact ih h

theorem DedupeStep_lookup_preserve (st : SceneLightCacheState) (l k w : ℕ)
    (h : lookupCache st.cache k = some w) :
    lookupCache (DedupeStep st l).cache k = some w := by
  unfold DedupeStep
  cases hl : lookupCache st.cache l with
  | some w2 => exact h
  | none => exact lookupCache_append_of_some _ _ _ _ h

theorem DedupeStep_lookup_self (st : SceneLightCacheState) (l : ℕ) :
    ∃ w, lookupCache (DedupeStep st l).cache l = some w
      ∧ (DedupeStep st l).visibleLights = st.visibleLights ++ [w] := by
  cases hl : lookupCache st.cache l with
  | some w =>
    refine ⟨w, ?_, ?_⟩
    · unfold DedupeStep
      rw [hl]
      exact hl
    · unfold DedupeStep
      rw [hl]
  | none =>
    refine ⟨st.nextWrapper, ?_, ?_⟩
    · unfold DedupeStep
      rw [hl]
      exact lookupCache_append_self _ _ _ hl
    · unfold DedupeStep
      rw [hl]

theorem DedupeAux_lookup_preserve (ls : List ℕ) :
    ∀ (st : SceneLightCacheState) (k w : ℕ), lookupCache st.cache k = some w →
      lookupCache (DedupeAux st ls).cache k = some w := by
  induction ls with
  | nil => intro st k w h; exact h
  | cons l rest ih =>
    intro st k w h
    exact ih (DedupeStep st l) k w (DedupeStep_lookup_preserve st l k w h)

theorem DedupeAux_lookup_mem (ls : List ℕ) :
    ∀ (st : SceneLightCacheState) (l : ℕ), l ∈ ls →
      ∃ w, lookupCache (DedupeAux st ls).cache l = some w := by
  induction ls with
  | nil => intro st l h; exact absurd h (List.not_mem_nil l)
  | cons l2 rest ih =>
    intro st l h
    rcases List.mem_cons.mp h with h | h
    · obtain ⟨w, hw, _⟩ := DedupeStep_lookup_self st l2
      rw [h]
      exact ⟨w, DedupeAux_lookup_preserve rest (DedupeStep st l2) l2 w hw⟩
    · exact ih (DedupeStep st l2) l h

theorem DedupeAux_visible (ls : List ℕ) :
    ∀ st : SceneLightCacheState, (DedupeAux st ls).visibleLights
      = st.visibleLights
        ++ ls.map (fun l => (lookupCache (DedupeAux st ls).cache l).getD 0) := by
  induction ls with
  | nil => intro st; simp [DedupeAux]
  | cons l rest ih =>
    intro st
    obtain ⟨w, hw, hv⟩ := DedupeStep_lookup_self st l
    have hfin : lookupCache (DedupeAux (DedupeStep st l) rest).cache l = some w :=
      DedupeAux_lookup_preserve rest (DedupeStep st l) l w hw
    rw [show DedupeAux st (l :: rest) = DedupeAux (DedupeStep st l) rest from rfl]
    rw [ih (DedupeStep st l), hv, List.map_cons, hfin]
    simp

/-- C4 counterexample: a first frame sees light 7 and caches wrapper 0 for it;
a second frame in which light 7 has disappeared runs the deduplication again,
yet the cache still holds the entry for light 7 afterwards — no code path of
the collector ever prunes cachedSceneLights_, contradicting the claim that
entries are pruned when the referenced Light disappears. -/
theorem sceneLightCache_cex :
    (DedupeVisibleLights (DedupeVisibleLights ⟨[], 0, []⟩ [7]) []).cache = [(7, 0)]
    ∧ lookupCache (DedupeVisibleLights (DedupeVisibleLights ⟨[], 0, []⟩ [7]) []).cache 7
        = some 0 :=
  ⟨rfl, rfl⟩

/-- C4 (amended): the SceneLight cache maps each Light to at most one wrapper:
the wrapper is created on first sight and every later frame that sees the same
Light looks up the identical wrapper; every light of a frame resolves through
the cache mapping (so duplicates share one wrapper); and cache entries are
never removed — an existing entry survives every subsequent frame unchanged,
even when its Light no longer occurs (nothing in the collector prunes the
cache). -/
theorem sceneLightCache_spec (st : SceneLightCacheState) (ls1 ls2 : List ℕ) (l : ℕ) :
    (∀ k w, lookupCache st.cache k = some w →
      lookupCache (DedupeVisibleLights st ls1).cache k = some w)
    ∧ (l ∈ ls1 → ∃ w, lookupCache (DedupeVisibleLights st ls1).cache l = some w
        ∧ lookupCache (DedupeVisibleLights (DedupeVisibleLights st ls1) ls2).cache l = some w)
    ∧ (DedupeVisibleLights st ls1).visibleLights
        = ls1.map (fun x => (lookupCache (DedupeVisibleLights st ls1).cache x).getD 0) := by
  refine ⟨?_, ?_, ?_⟩
  · intro k w h
    exact DedupeAux_lookup_preserve ls1 _ k w h
  · intro hl
    obtain ⟨w, hw⟩ := DedupeAux_lookup_mem ls1 { st with visibleLights := [] } l hl
    exact ⟨w, hw, DedupeAux_lookup_preserve ls2 _ l w hw⟩
  · rw [show DedupeVisibleLights st ls1 = DedupeAux { st with visibleLights := [] } ls1 from rfl]
    rw [DedupeAux_visible ls1 { st with visibleLights := [] }]
    rfl

/-- C4 witness: lights 7 and 8 in the first frame, only 8 in the second; the
wrapper cached for 7 in frame one is still found unchanged after frame two. -/
theorem sceneLightCache_spec_witness :
    ∃ w, lookupCache (DedupeVisibleLights ⟨[], 0, []⟩ [7, 8]).cache 7 = some w
      ∧ lookupCache
          (DedupeVisibleLights (DedupeVisibleLights ⟨[], 0, []⟩ [7, 8]) [8]).cache 7
          = some w :=
  (sceneLightCache_spec ⟨[], 0, []⟩ [7, 8] [8] 7).2.1 (by decide)

/-- C7 witness: concrete evaluation with main light index 0, a non-main light 1
at distance 3 with divisor 2. -/
theorem forwardLightingPenalty_spec_witness :
    forwardLightingPenalty (some 0) 0 5 1 = -M_LARGE_VALUE
    ∧ forwardLightingPenalty (some 0) 1 3 2 = eaMax 3 M_LARGE_EPSILON * (1 / 2)
    ∧ forwardLightingPenalty (some 0) 0 5 1 < forwardLightingPenalty (some 0) 1 3 2 := by
  refine ⟨?_, ?_, ?_⟩
  · exact (forwardLightingPenalty_spec (some 0) 0 5 1).1 rfl
  · exact ((forwardLightingPenalty_spec (some 0) 1 3 2).2.1 (by simp)).1
  · exact (forwardLightingPenalty_spec (some 0) 0 5 1).2.2 0 5 1 1 3 2 rfl (by simp)
      (by norm_num [forwardLightingPenalty, eaMax, M_LARGE_EPSILON])

end Rbfx
